import Mathlib

/-!
Verification of the nanopore_processor watcher (src/nanopore_processor.py)
against its natural-language specification.

Shallow embedding conventions:
* A filesystem path is a list of components (`Path`); the POSIX root is `[]`.
  `os.path.dirname` on an absolute path drops the last component and is the
  identity at the root (`dirname "/" = "/"`), which is `List.dropLast`.
  `os.path.join dir name` appends one component.
* File names are lists of characters (`List Char`), matching Python `str`
  operations `startswith` / `endswith` character by character.
* The filesystem itself is abstracted as a predicate `isdir : Path → Bool`
  (the result of `os.path.isdir`).
* Python exceptions are modelled with `Except String α`: a raised exception
  is `.error msg`, a normal return is `.ok`.
* Environment variables (`os.environ.get`) are `Option String`; Python's
  truthiness test `not s` on the result is false for `None` and for `""`.
-/

namespace NanoporeProcessor

/-- A filesystem path as a list of components; `[]` is the POSIX root `/`. -/
abbrev Path := List String

/-- `os.path.dirname` on absolute paths: drop the last component; the root is
its own parent (`os.path.dirname "/" == "/"`). -/
def dirname (p : Path) : Path := p.dropLast

/-- `os.path.basename` on absolute paths: the last component (the root has
basename `""`). -/
def basename (p : Path) : String := (p.getLast?).getD ""

/-- Render a component path back to the POSIX string produced by
`os.path.join` chains starting from `/`. -/
def renderPath (p : Path) : String := p.foldl (fun a c => a ++ "/" ++ c) ""

/-- The marker test of src/nanopore_processor.py lines 74 and 297:
`file_name.endswith(".txt") and file_name.startswith("final_summary")`,
on the characters of the file name. Pure: a function of the name alone. -/
def isMarkerName (name : List Char) : Bool :=
  (".txt".data.isSuffixOf name) && ("final_summary".data.isPrefixOf name)

/-- `experiment_info` as built by `get_experiment_info`
(src/nanopore_processor.py lines 260-266): exactly these five keys. -/
structure ExperimentInfo where
  path : String
  basecalling_method : String
  model : String
  email_recipients : String
  dorado_executable : String
deriving Repr, DecidableEq

/-- `FileWatcher.find_pod5_folder` loop body (lines 231-237): check
`os.path.join(current_dir, "pod5")`, else move to the parent, `n` times. -/
def find_pod5_go (isdir : Path → Bool) : Nat → Path → Option Path
  | 0, _ => none
  | n + 1, cur =>
      if isdir (cur ++ ["pod5"]) then some (cur ++ ["pod5"])
      else find_pod5_go isdir n (dirname cur)

/-- `FileWatcher.find_pod5_folder` (lines 219-239): start at the marker's
containing directory and check three levels (`for _ in range(3)`). -/
def find_pod5_folder (isdir : Path → Bool) (file_path : Path) : Option Path :=
  find_pod5_go isdir 3 (dirname file_path)

/-- The directory whose `pod5` subdirectory is examined at loop iteration
`i` of `find_pod5_folder`: the marker's directory after `i` parent steps. -/
def levelDir (file_path : Path) (i : Nat) : Path :=
  Nat.rec (dirname file_path) (fun _ d => dirname d) i

/-- The candidate `pod5` path examined at loop iteration `i`. -/
def pod5At (file_path : Path) (i : Nat) : Path :=
  levelDir file_path i ++ ["pod5"]

/-! ### Simplex / duplex basecalling dispatch (lines 143-217)

`run_simplex_basecalling` / `run_duplex_basecalling` locate the pod5
folder, build the command list and the output path, and run the child
process redirecting stdout to the output file.  The observable dispatch is
the pair (command, output file); `none` when the locator missed and the
function returned early (lines 152-154 / 190-192). -/

/-- A dispatch: the argv list passed to `subprocess.run` and the file the
child's stdout is redirected to. -/
structure Dispatch where
  command : List String
  output_file : String
deriving Repr, DecidableEq

/-- `FileWatcher.run_simplex_basecalling` (lines 143-179): early return when
no pod5 folder is found, else run
`[dorado_executable, "basecaller", model, pod5_folder]` with stdout
redirected to `os.path.join(os.path.dirname(file_path), "simplex_basecalled.bam")`. -/
def run_simplex_basecalling (info : ExperimentInfo) (isdir : Path → Bool)
    (file_path : Path) : Option Dispatch :=
  match find_pod5_folder isdir file_path with
  | none => none
  | some pod5_folder =>
      some { command := [info.dorado_executable, "basecaller", info.model,
                         renderPath pod5_folder],
             output_file := renderPath (dirname file_path ++ ["simplex_basecalled.bam"]) }

/-- `FileWatcher.run_duplex_basecalling` (lines 181-217): as simplex but with
subcommand `"duplex"` and output `duplex_basecalled.bam`. -/
def run_duplex_basecalling (info : ExperimentInfo) (isdir : Path → Bool)
    (file_path : Path) : Option Dispatch :=
  match find_pod5_folder isdir file_path with
  | none => none
  | some pod5_folder =>
      some { command := [info.dorado_executable, "duplex", info.model,
                         renderPath pod5_folder],
             output_file := renderPath (dirname file_path ++ ["duplex_basecalled.bam"]) }

/-! ### Notification (lines 102-141) -/

/-- Python truthiness failure of `os.environ.get(...)`: `None` or `""`. -/
def falsyEnv : Option String → Bool
  | none => true
  | some s => s = ""

/-- Observable behaviour of one `send_email_notification` call. -/
structure EmailTrace where
  network_attempted : Bool
  sent : Bool
deriving Repr, DecidableEq

/-- `FileWatcher.send_email_notification` (lines 102-141): if either
credential is falsy, log and return before any SMTP traffic (lines 122-124);
otherwise open the SMTP session (`transport_ok` abstracts whether
starttls/login/sendmail succeeded); any transport exception is caught at
lines 140-141.  The function never raises. -/
def send_email_notification (smtp_user smtp_password : Option String)
    (transport_ok : Bool) : EmailTrace :=
  if falsyEnv smtp_user || falsyEnv smtp_password then
    { network_attempted := false, sent := false }
  else
    { network_attempted := true, sent := transport_ok }

/-! ### Per-marker processing (lines 82-100) and the exception boundary -/

/-- `FileWatcher.process_file` at the granularity of its three fallible
sub-steps, each modelled as an arbitrary `Except` outcome (`.error` = the
step raised).  Lines 84-100: the whole body is wrapped in
`try ... except Exception`, which logs and falls through, so the method
always returns normally. -/
def process_file_result (method : String)
    (notify simplexRun duplexRun : Except String Unit) : Except String Unit :=
  match (do
    let _ ← notify
    if method = "simplex" then simplexRun
    else if method = "duplex" then duplexRun
    else pure () : Except String Unit) with
  | .ok _ => .ok ()
  | .error _ => .ok ()

/-- Everything observable about handling one fresh marker through
`on_created` → `process_file` (lines 75-100): whether the notifier ran and
touched the network, the dispatch (if any), whether `process_file` returned
normally, and whether line 78 then recorded the path as processed. -/
structure HandleTrace where
  email_attempted : Bool
  email : EmailTrace
  dispatched : Option Dispatch
  result : Except String Unit
  claimed : Bool
deriving Repr

/-- One fresh marker handled end to end (lines 75-100): the notification is
attempted first (line 86), then basecalling is selected on
`basecalling_method` (lines 90-95; unknown methods only log a warning), and
since every sub-step catches its own exceptions the body returns normally,
so `processed_files.add` at line 78 always runs (`claimed`). -/
def handle_marker (info : ExperimentInfo) (smtp_user smtp_password : Option String)
    (transport_ok : Bool) (isdir : Path → Bool) (file_path : Path) : HandleTrace :=
  let email := send_email_notification smtp_user smtp_password transport_ok
  let dispatched :=
    if info.basecalling_method = "simplex" then
      run_simplex_basecalling info isdir file_path
    else if info.basecalling_method = "duplex" then
      run_duplex_basecalling info isdir file_path
    else none
  let result : Except String Unit := process_file_result info.basecalling_method
    (.ok ()) (.ok ()) (.ok ())
  { email_attempted := true
    email := email
    dispatched := dispatched
    result := result
    claimed := match result with | .ok _ => true | .error _ => false }

/-! ### Dedup tracking: `on_created` (lines 68-80) and the startup scan
(lines 293-304) feed the same check-then-insert logic on
`self.processed_files`. -/

/-- The shared mutable state: the processed set (line 65) plus the trace of
paths for which `process_file` was invoked (the dispatches). -/
structure WatchState where
  processed : List Path
  dispatches : List Path
deriving Repr, DecidableEq

/-- The common handling of one candidate file path (lines 74-80 and
297-304): if the base name matches and the path is not yet in
`processed_files`, run `process_file` (recorded in `dispatches`) and then
add the path. -/
def handle_path (s : WatchState) (p : Path) : WatchState :=
  if isMarkerName (basename p).data then
    if p ∈ s.processed then s
    else { processed := p :: s.processed, dispatches := s.dispatches ++ [p] }
  else s

/-- A watchdog filesystem event (lines 68-71). -/
structure Event where
  src_path : Path
  is_directory : Bool
deriving Repr, DecidableEq

/-- `FileWatcher.on_created` (lines 68-80): ignore directory events, else
handle the created path. -/
def on_created (s : WatchState) (e : Event) : WatchState :=
  if e.is_directory then s else handle_path s e.src_path

/-- A sequence of live events handled one after the other (the watchdog
observer delivers events to `on_created` sequentially). -/
def runEvents (s : WatchState) (es : List Event) : WatchState :=
  es.foldl on_created s

/-- The startup scan's handling loop (lines 293-304) over the file paths
produced by `os.walk`: exactly the same check-then-insert logic. -/
def scan_files (s : WatchState) (files : List Path) : WatchState :=
  files.foldl handle_path s

/-! ### Two concurrent callers racing on `processed_files`

`main` starts the observer (line 287) *before* running the startup scan
(lines 291-306), so the observer thread's `on_created` and the main
thread's scan loop run concurrently over the same unlocked
`self.processed_files` set.  Under CPython each individual membership test
(line 75 / 299) and each `set.add` (line 78 / 302) is atomic, but the code
takes no lock around the check → `process_file` → add sequence, and
`process_file` blocks for the full child-process runtime.  We model each
thread handling the same marker path as three atomic steps:

* pc 0: evaluate `path not in processed_files`; if present, skip to done;
* pc 1: run `process_file` (counted as one dispatch);
* pc 2: `processed_files.add(path)`; then done (pc 3).
-/

/-- Shared state plus the two threads' program counters. -/
structure RaceState where
  processed : List Path
  dispatches : Nat
  pc1 : Nat
  pc2 : Nat
deriving Repr, DecidableEq

/-- One atomic step of one thread handling marker path `p`
(`who = true` steps the scan thread, `who = false` the observer thread). -/
def raceStep (p : Path) (s : RaceState) (who : Bool) : RaceState :=
  let pc := if who then s.pc1 else s.pc2
  let setPc (s' : RaceState) (v : Nat) : RaceState :=
    if who then { s' with pc1 := v } else { s' with pc2 := v }
  if pc = 0 then
    if p ∈ s.processed then setPc s 3 else setPc s 1
  else if pc = 1 then
    setPc { s with dispatches := s.dispatches + 1 } 2
  else if pc = 2 then
    setPc { s with processed := p :: s.processed } 3
  else s

/-- Run a whole interleaving (a list of thread choices). -/
def runRace (p : Path) (s : RaceState) (sched : List Bool) : RaceState :=
  sched.foldl (raceStep p) s

/-- Both threads at their first step, nothing processed or dispatched yet. -/
def raceInit : RaceState := { processed := [], dispatches := 0, pc1 := 0, pc2 := 0 }

/-! ### Configuration loading (lines 246-268) and startup (lines 271-327) -/

/-- The `[Settings]` section of the config file: which of the five keys read
by `get_experiment_info` are present, and with what value. -/
structure RawConfig where
  path : Option String
  basecalling_method : Option String
  model : Option String
  email_recipients : Option String
  dorado_executable : Option String
deriving Repr, DecidableEq

/-- `get_experiment_info` (lines 246-268): `config.get` without a fallback
raises `configparser.NoOptionError` when the key is absent (`path`,
`email_recipients`); the other three keys have fallbacks
(`"simplex"`, `"hac"`, `"dorado"`).  The dict literal evaluates its entries
top to bottom, so a missing `path` raises before `email_recipients` is read. -/
def get_experiment_info (c : RawConfig) : Except String ExperimentInfo :=
  match c.path with
  | none => .error "NoOptionError: no option 'path' in section 'Settings'"
  | some p =>
      match c.email_recipients with
      | none => .error "NoOptionError: no option 'email_recipients' in section 'Settings'"
      | some r =>
          .ok { path := p
                basecalling_method := c.basecalling_method.getD "simplex"
                model := c.model.getD "hac"
                email_recipients := r
                dorado_executable := c.dorado_executable.getD "dorado" }

/-- `main` up to the decision to watch (lines 271-288, 325-326): an
exception from `get_experiment_info` propagates and the process dies before
any watcher exists (`.error`); otherwise the observer is scheduled and
started iff `os.path.isdir(data_path)` (line 278), else only an error is
logged (line 326).  The payload records whether watching started. -/
def main_startup (c : RawConfig) (isdir : String → Bool) : Except String Bool :=
  match get_experiment_info c with
  | .error e => .error e
  | .ok info => .ok (isdir info.path)

/-- `true` iff the process reaches `observer.start()` (line 287). -/
def startsWatching (c : RawConfig) (isdir : String → Bool) : Bool :=
  match main_startup c isdir with
  | .ok b => b
  | .error _ => false

/-! ### Python `os.path.splitext` on a bare file name

Used only to state C3's "extension exactly `.txt`" faithfully.  For a name
without path separators, `splitext` returns the extension starting at the
last dot, unless every character before that dot is itself a dot (leading
dots carry no extension: `splitext(".txt") = (".txt", "")`). -/

/-- Scan the reversed name for the first dot; `acc` holds the characters
already passed (the original name's tail after the candidate dot). -/
def splitextExtRev : List Char → List Char → List Char
  | [], _ => []
  | c :: rest, acc =>
      if c = '.' then
        if rest.any (fun d => d ≠ '.') then '.' :: acc else []
      else splitextExtRev rest (c :: acc)

/-- `os.path.splitext(name)[1]` for a bare file name. -/
def splitextExt (name : List Char) : List Char :=
  splitextExtRev name.reverse []

/-! ## Theorems -/

/-- Helper: the extension scan on a reversed name ending (in the original)
in `.txt`, when some character left of that dot is not a dot. -/
theorem splitextExtRev_txt (v : List Char)
    (hv : v.any (fun d => d ≠ '.') = true) :
    splitextExtRev ('t' :: 'x' :: 't' :: '.' :: v) [] = ".txt".data := by
  simp only [List.any_eq_true, decide_eq_true_eq] at hv
  simp [splitextExtRev, List.any_eq_true, hv]

/-- Helper: a nonempty extension comes from the last dot of the name, with
the accumulated tail following it. -/
theorem splitextExtRev_shape : ∀ (r acc res : List Char),
    splitextExtRev r acc = res → res ≠ [] →
    ∃ a b, r = a ++ '.' :: b ∧ res = '.' :: (a.reverse ++ acc) := by
  intro r
  induction r with
  | nil =>
      intro acc res h hne
      exact absurd h.symm hne
  | cons c rest ih =>
      intro acc res h hne
      by_cases hc : c = '.'
      · subst hc
        rw [splitextExtRev] at h
        simp only [if_pos rfl] at h
        by_cases hany : rest.any (fun d => d ≠ '.') = true
        · rw [if_pos hany] at h
          exact ⟨[], rest, rfl, by simpa using h.symm⟩
        · rw [if_neg hany] at h
          exact absurd h.symm hne
      · rw [splitextExtRev, if_neg hc] at h
        obtain ⟨a, b, hab, hres⟩ := ih (c :: acc) res h hne
        refine ⟨c :: a, b, by rw [hab]; rfl, ?_⟩
        rw [hres]
        simp

/-- C3: the marker matcher accepts a file name iff the name's
`os.path.splitext` extension is exactly `.txt` and the name starts with the
literal prefix `final_summary`, both case-sensitively.  `isMarkerName` is a
plain function of the name's characters (no I/O, no state). -/
theorem marker_matcher_iff_ext_and_prefix (name : List Char) :
    isMarkerName name = true ↔
      (splitextExt name = ".txt".data ∧ "final_summary".data <+: name) := by
  constructor
  · intro h
    rw [isMarkerName, Bool.and_eq_true] at h
    obtain ⟨hsuf, hpre⟩ := h
    rw [List.isSuffixOf_iff_suffix] at hsuf
    rw [List.isPrefixOf_iff_prefix] at hpre
    obtain ⟨u, hu⟩ := hsuf
    refine ⟨?_, hpre⟩
    obtain ⟨t, ht⟩ := hpre
    have hany : u.any (fun d => d ≠ '.') = true := by
      cases u with
      | nil =>
          exfalso
          rw [← hu] at ht
          have hlen := congrArg List.length ht
          simp at hlen
      | cons c u' =>
          have hc : c = 'f' := by
            rw [← hu] at ht
            have : "final_summary".data ++ t = c :: (u' ++ ".txt".data) := ht
            rw [show "final_summary".data = 'f' :: "inal_summary".data from rfl] at this
            exact (List.cons_eq_cons.mp this).1.symm
          subst hc
          simp [List.any_cons]
    rw [splitextExt, ← hu]
    rw [show (u ++ ".txt".data).reverse = 't' :: 'x' :: 't' :: '.' :: u.reverse by simp]
    exact splitextExtRev_txt u.reverse (by simpa using hany)
  · rintro ⟨hext, hpre⟩
    have hne : (".txt".data : List Char) ≠ [] := by decide
    obtain ⟨a, b, hab, hres⟩ :=
      splitextExtRev_shape name.reverse [] _ (hext ▸ rfl) hne
    have ha : a = ['t', 'x', 't'] := by
      have : ('.' : Char) :: (a.reverse ++ []) = ".txt".data := hres.symm
      simp only [List.append_nil] at this
      have h2 : a.reverse = ['t', 'x', 't'] := by
        have := List.cons_eq_cons.mp this
        exact this.2
      calc a = a.reverse.reverse := by simp
        _ = ['t', 'x', 't'] := by rw [h2]; rfl
    have hname : name = b.reverse ++ ".txt".data := by
      have : name.reverse.reverse = (a ++ '.' :: b).reverse := by rw [hab]
      rw [List.reverse_reverse] at this
      rw [this, ha]
      simp
    rw [isMarkerName, Bool.and_eq_true]
    refine ⟨?_, List.isPrefixOf_iff_prefix.mpr hpre⟩
    rw [List.isSuffixOf_iff_suffix]
    exact ⟨b.reverse, hname.symm⟩

/-- Helper: the three-iteration locator loop, written out as the chain of
its three checks. -/
theorem find_pod5_folder_eq (isdir : Path → Bool) (fp : Path) :
    find_pod5_folder isdir fp =
      if isdir (pod5At fp 0) then some (pod5At fp 0)
      else if isdir (pod5At fp 1) then some (pod5At fp 1)
      else if isdir (pod5At fp 2) then some (pod5At fp 2)
      else none := rfl

/-- Helper: no `pod5` directory at any of the three levels means the
locator returns `none`. -/
theorem find_pod5_folder_eq_none (isdir : Path → Bool) (fp : Path)
    (h : ∀ i, i < 3 → isdir (pod5At fp i) = false) :
    find_pod5_folder isdir fp = none := by
  rw [find_pod5_folder_eq]
  simp [h 0 (by omega), h 1 (by omega), h 2 (by omega)]

/-- Helper: the locator returns the shallowest level whose `pod5` check
succeeds. -/
theorem find_pod5_folder_eq_some (isdir : Path → Bool) (fp : Path)
    (i : Nat) (hi : i < 3)
    (hprev : ∀ j, j < i → isdir (pod5At fp j) = false)
    (hit : isdir (pod5At fp i) = true) :
    find_pod5_folder isdir fp = some (pod5At fp i) := by
  rw [find_pod5_folder_eq]
  interval_cases i
  · simp [hit]
  · simp [hprev 0 (by omega), hit]
  · simp [hprev 0 (by omega), hprev 1 (by omega), hit]

/-- C4: the pod5 locator checks the marker's containing directory and the
next two ancestors (three levels, `range(3)`), walking upward by
parent-directory resolution (which is the identity at the root, so the
bound degrades gracefully there); it returns the shallowest level at which
a directory literally named `pod5` exists, and `none` when all three
levels miss. -/
theorem pod5_locator_first_match (isdir : Path → Bool) (fp : Path) :
    ((∀ i, i < 3 → isdir (pod5At fp i) = false) →
        find_pod5_folder isdir fp = none) ∧
    (∀ i, i < 3 → (∀ j, j < i → isdir (pod5At fp j) = false) →
        isdir (pod5At fp i) = true →
        find_pod5_folder isdir fp = some (pod5At fp i)) :=
  ⟨find_pod5_folder_eq_none isdir fp, find_pod5_folder_eq_some isdir fp⟩

/-- Witness for C4: a tree with `pod5` beside the marker is found at level
0, exercising the theorem at a concrete input. -/
theorem pod5_locator_first_match_witness :
    find_pod5_folder (fun p => p == ["exp", "run1", "pod5"])
        ["exp", "run1", "final_summary.txt"] =
      some ["exp", "run1", "pod5"] :=
  (pod5_locator_first_match (fun p => p == ["exp", "run1", "pod5"])
      ["exp", "run1", "final_summary.txt"]).2 0 (by omega)
    (fun j hj => absurd hj (by omega)) (by decide)

/-- The handling invariant: no path has been dispatched twice, and every
dispatched path is recorded in `processed_files`. -/
def WatchInv (s : WatchState) : Prop :=
  s.dispatches.Nodup ∧ ∀ q ∈ s.dispatches, q ∈ s.processed

/-- Helper: one check-then-insert step preserves the invariant. -/
theorem handle_path_inv (s : WatchState) (p : Path) (h : WatchInv s) :
    WatchInv (handle_path s p) := by
  obtain ⟨hnd, hsub⟩ := h
  rw [handle_path]
  split
  · split
    · exact ⟨hnd, hsub⟩
    · rename_i hnotin
      constructor
      · simp only [List.nodup_append, List.nodup_cons, List.nodup_nil]
        exact ⟨hnd, by simp, by
          intro q hq hq'
          simp at hq'
          exact hnotin (hq' ▸ hsub q hq)⟩
      · intro q hq
        simp only [List.mem_append, List.mem_singleton] at hq
        rcases hq with hq | hq
        · exact List.mem_cons_of_mem _ (hsub q hq)
        · exact hq ▸ List.mem_cons_self _ _
  · exact ⟨hnd, hsub⟩

/-- Helper: the invariant is preserved by any sequence of scanned files. -/
theorem scan_files_inv (files : List Path) (s : WatchState) (h : WatchInv s) :
    WatchInv (scan_files s files) := by
  induction files generalizing s with
  | nil => exact h
  | cons f fs ih => exact ih (handle_path s f) (handle_path_inv s f h)

/-- Helper: the invariant is preserved by any sequence of live events. -/
theorem runEvents_inv (es : List Event) (s : WatchState) (h : WatchInv s) :
    WatchInv (runEvents s es) := by
  induction es generalizing s with
  | nil => exact h
  | cons e es ih =>
      refine ih (on_created s e) ?_
      rw [on_created]
      split
      · exact h
      · exact handle_path_inv s _ h

/-- Helper: the processed set only grows under one handling step. -/
theorem handle_path_processed_mono (s : WatchState) (p q : Path)
    (h : q ∈ s.processed) : q ∈ (handle_path s p).processed := by
  rw [handle_path]
  split
  · split
    · exact h
    · exact List.mem_cons_of_mem _ h
  · exact h

/-- Helper: the processed set only grows across a scan. -/
theorem scan_files_processed_mono (files : List Path) (s : WatchState) (q : Path)
    (h : q ∈ s.processed) : q ∈ (scan_files s files).processed := by
  induction files generalizing s with
  | nil => exact h
  | cons f fs ih => exact ih (handle_path s f) (handle_path_processed_mono s f q h)

/-- Helper: after a scan, every marker file the scan saw is in the
processed set. -/
theorem scan_files_marker_processed (files : List Path) (s : WatchState)
    (f : Path) (hf : f ∈ files) (hm : isMarkerName (basename f).data = true) :
    f ∈ (scan_files s files).processed := by
  induction files generalizing s with
  | nil => cases hf
  | cons g gs ih =>
      rcases List.mem_cons.mp hf with rfl | hf'
      · refine scan_files_processed_mono gs (handle_path s f) f ?_
        rw [handle_path, if_pos hm]
        split
        · assumption
        · exact List.mem_cons_self _ _
      · exact ih (handle_path s g) hf'

/-- Helper: handling a path that is either a non-marker or already
processed changes nothing. -/
theorem handle_path_id (s : WatchState) (p : Path)
    (h : isMarkerName (basename p).data = false ∨ p ∈ s.processed) :
    handle_path s p = s := by
  rcases h with h | h
  · rw [handle_path, if_neg (by simp [h])]
  · rw [handle_path]
    by_cases hm : isMarkerName (basename p).data = true
    · rw [if_pos hm, if_pos h]
    · rw [if_neg hm]

/-- Helper: a scan over files whose markers are all already processed is a
no-op. -/
theorem scan_files_id (files : List Path) (s : WatchState)
    (h : ∀ f ∈ files, isMarkerName (basename f).data = true → f ∈ s.processed) :
    scan_files s files = s := by
  induction files with
  | nil => rfl
  | cons g gs ih =>
      have hg : handle_path s g = s := by
        by_cases hm : isMarkerName (basename g).data = true
        · exact handle_path_id s g (Or.inr (h g (List.mem_cons_self _ _) hm))
        · exact handle_path_id s g (Or.inl (Bool.not_eq_true _ ▸ Bool.of_not_eq_true hm))
      show scan_files (handle_path s g) gs = s
      rw [hg]
      exact ih fun f hf => h f (List.mem_cons_of_mem _ hf)

/-- Helper: a duplicate-free dispatch trace contains each path at most
once. -/
theorem nodup_countP_le_one {l : List Path} (h : l.Nodup) (p : Path) :
    l.countP (fun q => q = p) ≤ 1 := by
  induction l with
  | nil => simp
  | cons a l ih =>
      rw [List.countP_cons]
      rcases List.nodup_cons.mp h with ⟨ha, hl⟩
      by_cases hap : a = p
      · subst hap
        have hz : l.countP (fun q => q = a) = 0 := by
          rw [List.countP_eq_zero]
          intro q hq
          simp only [decide_eq_true_eq]
          intro h'
          exact ha (h' ▸ hq)
        simp [hz]
      · have hd : (decide (a = p)) = false := by simp [hap]
        simp only [hd, if_false, Nat.add_zero]
        exact ih hl

/-- Supporting result for the serialized reading of the lifetime
invariant: in the sequential event-handling model (one marker handled to
completion before the next), a process lifetime consisting of the startup
scan followed by any stream of live events invokes `process_file` at most
once per marker path, and re-running the startup scan a second time over
the unchanged file list leaves the state untouched.  This is only the
serialized half of the story: the concurrent scan/observer interleaving
breaks the unqualified invariant, see `concurrent_lifetime_double_dispatch`. -/
theorem at_most_one_dispatch_per_path (s : WatchState)
    (files : List Path) (events : List Event) (p : Path)
    (hinit : s.processed = [] ∧ s.dispatches = []) :
    (runEvents (scan_files s files) events).dispatches.countP (fun q => q = p) ≤ 1 ∧
    scan_files (scan_files s files) files = scan_files s files := by
  constructor
  · have hinv : WatchInv s := by
      constructor
      · rw [hinit.2]
        exact List.nodup_nil
      · intro q hq
        rw [hinit.2] at hq
        cases hq
    have h2 := runEvents_inv events (scan_files s files)
      (scan_files_inv files s hinv)
    exact nodup_countP_le_one h2.1 p
  · exact scan_files_id files (scan_files s files)
      (fun f hf hm => scan_files_marker_processed files s f hf hm)

/-- Concrete instance of the serialized-model result: one marker scanned
at startup and then re-delivered as a live event is dispatched exactly
once, and the double scan is literally idempotent. -/
theorem at_most_one_dispatch_per_path_witness :
    ((runEvents
          (scan_files ⟨[], []⟩ [["exp", "run1", "final_summary.txt"]])
          [⟨["exp", "run1", "final_summary.txt"], false⟩]).dispatches.countP
        (fun q => q = ["exp", "run1", "final_summary.txt"])) ≤ 1 ∧
    scan_files (scan_files ⟨[], []⟩ [["exp", "run1", "final_summary.txt"]])
        [["exp", "run1", "final_summary.txt"]] =
      scan_files ⟨[], []⟩ [["exp", "run1", "final_summary.txt"]] :=
  at_most_one_dispatch_per_path ⟨[], []⟩ [["exp", "run1", "final_summary.txt"]]
    [⟨["exp", "run1", "final_summary.txt"], false⟩]
    ["exp", "run1", "final_summary.txt"] ⟨rfl, rfl⟩

/-- C1 (evidence of the defect): the unqualified lifetime invariant — at
most one DispatchResult per marker path per process instance, enforced by
membership being checked-then-inserted as a single logical step — fails on
the code: the check (line 75 / 299) and the insert (line 78 / 302) are
*not* a single step, and because `main` starts the observer (line 287)
before the startup scan (lines 291-306) the two run concurrently on the
unlocked set.  In the lifetime interleaving below, the observer's
`on_created` checks first, the scan's loop checks the same path before the
observer inserts, and both dispatch: two `process_file` invocations for
one marker path within one process instance. -/
theorem concurrent_lifetime_double_dispatch :
    (runRace ["exp", "run2", "final_summary_20240101.txt"] raceInit
        [false, true, false, false, true, true]).dispatches = 2 := by
  rfl

/-- C2 (evidence of the defect): `main` starts the observer before the
startup scan, and neither lines 75-78 nor lines 299-302 hold a lock, so the
membership test and the insertion are separate atomic steps with the
long-blocking `process_file` between them.  In the interleaving where both
threads pass their membership test before either inserts, **both** callers
dispatch the same marker path — two `process_file` invocations — while a
serialized interleaving of the very same steps dispatches once. -/
theorem race_unsynchronized_double_dispatch :
    (runRace ["exp", "run1", "final_summary.txt"] raceInit
        [true, false, true, true, false, false]).dispatches = 2 ∧
    (runRace ["exp", "run1", "final_summary.txt"] raceInit
        [true, true, true, false, false, false]).dispatches = 1 := by
  constructor <;> rfl

/-- Helper: `process_file` always returns normally — every failure of a
sub-step is swallowed by the `try/except Exception` at lines 84-100. -/
theorem process_file_result_ok (method : String)
    (notify simplexRun duplexRun : Except String Unit) :
    process_file_result method notify simplexRun duplexRun = Except.ok () := by
  unfold process_file_result
  split <;> rfl

/-- Helper: handling one marker always ends with the path recorded as
processed (line 78 runs because `process_file` returned normally). -/
theorem handle_marker_claimed (info : ExperimentInfo)
    (u pw : Option String) (t : Bool) (isdir : Path → Bool) (fp : Path) :
    (handle_marker info u pw t isdir fp).claimed = true := by
  show (match process_file_result info.basecalling_method
          (Except.ok ()) (Except.ok ()) (Except.ok ()) with
        | Except.ok _ => true
        | Except.error _ => false) = true
  rw [process_file_result_ok]

/-- Helper: the `result` field of one marker's handling is a normal
return. -/
theorem handle_marker_result_ok (info : ExperimentInfo)
    (u pw : Option String) (t : Bool) (isdir : Path → Bool) (fp : Path) :
    (handle_marker info u pw t isdir fp).result = Except.ok () :=
  process_file_result_ok info.basecalling_method
    (Except.ok ()) (Except.ok ()) (Except.ok ())

/-- C6: no error raised while handling one marker (notification, locator or
pipeline dispatch may each raise arbitrarily) escapes the per-event path:
`process_file` converts every such exception to a normal return, so the
handler always returns and the watcher survives any single marker's
failure. -/
theorem per_event_errors_never_escape (method : String)
    (notify simplexRun duplexRun : Except String Unit)
    (info : ExperimentInfo) (u pw : Option String) (t : Bool)
    (isdir : Path → Bool) (fp : Path) :
    process_file_result method notify simplexRun duplexRun = Except.ok () ∧
    (handle_marker info u pw t isdir fp).result = Except.ok () :=
  ⟨process_file_result_ok method notify simplexRun duplexRun,
   handle_marker_result_ok info u pw t isdir fp⟩

/-- C7: with either SMTP credential absent (or empty — Python truthiness),
`send_email_notification` returns failure before any network traffic; and
whatever the notification outcome, the dispatch decision is unchanged and
the marker is still claimed. -/
theorem missing_credentials_and_dispatch_independence
    (info : ExperimentInfo) (isdir : Path → Bool) (fp : Path)
    (smtp_user smtp_password u2 p2 : Option String) (transport_ok t2 : Bool)
    (h : falsyEnv smtp_user = true ∨ falsyEnv smtp_password = true) :
    (handle_marker info smtp_user smtp_password transport_ok isdir fp).email =
      { network_attempted := false, sent := false } ∧
    (handle_marker info smtp_user smtp_password transport_ok isdir fp).dispatched =
      (handle_marker info u2 p2 t2 isdir fp).dispatched ∧
    (handle_marker info smtp_user smtp_password transport_ok isdir fp).claimed = true := by
  refine ⟨?_, rfl, handle_marker_claimed info smtp_user smtp_password transport_ok isdir fp⟩
  show send_email_notification smtp_user smtp_password transport_ok = _
  rcases h with h | h <;> simp [send_email_notification, h]

/-- Witness for C7: `SMTP_USER` unset while everything else is in place —
no network attempt, dispatch decision identical to a run with full
credentials, marker claimed. -/
theorem missing_credentials_and_dispatch_independence_witness :
    (handle_marker ⟨"/exp", "simplex", "hac", "user@example.com", "dorado"⟩
        none (some "pw") true (fun p => p == ["exp", "run1", "pod5"])
        ["exp", "run1", "final_summary.txt"]).email =
      { network_attempted := false, sent := false } ∧
    (handle_marker ⟨"/exp", "simplex", "hac", "user@example.com", "dorado"⟩
        none (some "pw") true (fun p => p == ["exp", "run1", "pod5"])
        ["exp", "run1", "final_summary.txt"]).dispatched =
      (handle_marker ⟨"/exp", "simplex", "hac", "user@example.com", "dorado"⟩
        (some "u") (some "p") true (fun p => p == ["exp", "run1", "pod5"])
        ["exp", "run1", "final_summary.txt"]).dispatched ∧
    (handle_marker ⟨"/exp", "simplex", "hac", "user@example.com", "dorado"⟩
        none (some "pw") true (fun p => p == ["exp", "run1", "pod5"])
        ["exp", "run1", "final_summary.txt"]).claimed = true :=
  missing_credentials_and_dispatch_independence
    ⟨"/exp", "simplex", "hac", "user@example.com", "dorado"⟩
    (fun p => p == ["exp", "run1", "pod5"]) ["exp", "run1", "final_summary.txt"]
    none (some "pw") (some "u") (some "p") true true (Or.inl rfl)

/-- C8: when no `pod5` directory exists at any of the three levels the
locator may inspect, the pipeline dispatch is skipped, the notification is
still attempted (it runs first, line 86), and the marker is still claimed. -/
theorem locator_miss_skips_dispatch_still_claims
    (info : ExperimentInfo) (u pw : Option String) (t : Bool)
    (isdir : Path → Bool) (fp : Path)
    (h : ∀ i, i < 3 → isdir (pod5At fp i) = false) :
    (handle_marker info u pw t isdir fp).dispatched = none ∧
    (handle_marker info u pw t isdir fp).email_attempted = true ∧
    (handle_marker info u pw t isdir fp).claimed = true := by
  have hn := find_pod5_folder_eq_none isdir fp h
  refine ⟨?_, rfl, handle_marker_claimed info u pw t isdir fp⟩
  show (if info.basecalling_method = "simplex" then
          run_simplex_basecalling info isdir fp
        else if info.basecalling_method = "duplex" then
          run_duplex_basecalling info isdir fp
        else none) = none
  have hs : run_simplex_basecalling info isdir fp = none := by
    unfold run_simplex_basecalling
    rw [hn]
  have hd : run_duplex_basecalling info isdir fp = none := by
    unfold run_duplex_basecalling
    rw [hn]
  by_cases h1 : info.basecalling_method = "simplex"
  · simp [h1, hs]
  · by_cases h2 : info.basecalling_method = "duplex"
    · simp [h1, h2, hd]
    · simp [h1, h2]

/-- Witness for C8: an isolated marker with no `pod5` anywhere — skipped
dispatch, notification attempted, marker claimed. -/
theorem locator_miss_skips_dispatch_still_claims_witness :
    (handle_marker ⟨"/exp", "simplex", "hac", "user@example.com", "dorado"⟩
        (some "u") (some "p") true (fun _ => false)
        ["exp", "run1", "final_summary.txt"]).dispatched = none ∧
    (handle_marker ⟨"/exp", "simplex", "hac", "user@example.com", "dorado"⟩
        (some "u") (some "p") true (fun _ => false)
        ["exp", "run1", "final_summary.txt"]).email_attempted = true ∧
    (handle_marker ⟨"/exp", "simplex", "hac", "user@example.com", "dorado"⟩
        (some "u") (some "p") true (fun _ => false)
        ["exp", "run1", "final_summary.txt"]).claimed = true :=
  locator_miss_skips_dispatch_still_claims
    ⟨"/exp", "simplex", "hac", "user@example.com", "dorado"⟩
    (some "u") (some "p") true (fun _ => false)
    ["exp", "run1", "final_summary.txt"] (fun _ _ => rfl)

/-- C10: a basecalling method that is neither `simplex` nor `duplex` only
logs a warning (line 95): the handler still returns normally, the
notification is still attempted, nothing is dispatched, and the marker is
still claimed. -/
theorem unknown_method_no_dispatch_still_claims
    (info : ExperimentInfo) (u pw : Option String) (t : Bool)
    (isdir : Path → Bool) (fp : Path)
    (h1 : info.basecalling_method ≠ "simplex")
    (h2 : info.basecalling_method ≠ "duplex") :
    (handle_marker info u pw t isdir fp).result = Except.ok () ∧
    (handle_marker info u pw t isdir fp).email_attempted = true ∧
    (handle_marker info u pw t isdir fp).dispatched = none ∧
    (handle_marker info u pw t isdir fp).claimed = true := by
  refine ⟨handle_marker_result_ok info u pw t isdir fp, rfl, ?_,
    handle_marker_claimed info u pw t isdir fp⟩
  show (if info.basecalling_method = "simplex" then
          run_simplex_basecalling info isdir fp
        else if info.basecalling_method = "duplex" then
          run_duplex_basecalling info isdir fp
        else none) = none
  simp [h1, h2]

/-- Witness for C10: the unknown method `"triplex"` is handled without
error, without dispatch, with the notification attempted and the marker
claimed. -/
theorem unknown_method_no_dispatch_still_claims_witness :
    (handle_marker ⟨"/exp", "triplex", "hac", "user@example.com", "dorado"⟩
        (some "u") (some "p") true (fun _ => true)
        ["exp", "run1", "final_summary.txt"]).result = Except.ok () ∧
    (handle_marker ⟨"/exp", "triplex", "hac", "user@example.com", "dorado"⟩
        (some "u") (some "p") true (fun _ => true)
        ["exp", "run1", "final_summary.txt"]).email_attempted = true ∧
    (handle_marker ⟨"/exp", "triplex", "hac", "user@example.com", "dorado"⟩
        (some "u") (some "p") true (fun _ => true)
        ["exp", "run1", "final_summary.txt"]).dispatched = none ∧
    (handle_marker ⟨"/exp", "triplex", "hac", "user@example.com", "dorado"⟩
        (some "u") (some "p") true (fun _ => true)
        ["exp", "run1", "final_summary.txt"]).claimed = true :=
  unknown_method_no_dispatch_still_claims
    ⟨"/exp", "triplex", "hac", "user@example.com", "dorado"⟩
    (some "u") (some "p") true (fun _ => true)
    ["exp", "run1", "final_summary.txt"] (by decide) (by decide)

/-- C5 counterexample: at a concrete marker with an adjacent `pod5` folder,
the dispatched command line is exactly
`[dorado_executable, "basecaller", model, pod5_folder]` — four tokens.
`get_experiment_info` reads no kit key at all, so no kit identifier exists
anywhere in the program; in particular no token of the command is a kit
identifier (shown here for the representative kit string `"SQK-LSK114"`,
which differs from all four tokens), and there is no `--simplex` flag
either (the mode is selected only by the positional subcommand). -/
theorem simplex_command_lacks_kit :
    run_simplex_basecalling
        { path := "/exp", basecalling_method := "simplex", model := "hac",
          email_recipients := "user@example.com", dorado_executable := "dorado" }
        (fun p => p == ["exp", "run1", "pod5"])
        ["exp", "run1", "final_summary.txt"] =
      some { command := ["dorado", "basecaller", "hac", "/exp/run1/pod5"],
             output_file := "/exp/run1/simplex_basecalled.bam" } ∧
    "SQK-LSK114" ∉ ["dorado", "basecaller", "hac", "/exp/run1/pod5"] ∧
    "--simplex" ∉ ["dorado", "basecaller", "hac", "/exp/run1/pod5"] := by
  refine ⟨rfl, ?_, ?_⟩ <;> decide

/-- C5 (amended): whenever the locator finds a pod5 folder, the simplex
command line is `[executable, "basecaller", model, pod5]` (the basecaller
mode is selected by the positional subcommand token, not a `--simplex`
flag; no kit identifier appears, the configuration having none), its
output artifact is `<directory-of-marker>/simplex_basecalled.bam`, and the
duplex command line is `[executable, "duplex", model, pod5]` with output
`<directory-of-marker>/duplex_basecalled.bam`. -/
theorem dispatch_command_shape (info : ExperimentInfo) (isdir : Path → Bool)
    (fp pod5 : Path) (h : find_pod5_folder isdir fp = some pod5) :
    run_simplex_basecalling info isdir fp =
      some { command := [info.dorado_executable, "basecaller", info.model,
                         renderPath pod5],
             output_file := renderPath (dirname fp ++ ["simplex_basecalled.bam"]) } ∧
    run_duplex_basecalling info isdir fp =
      some { command := [info.dorado_executable, "duplex", info.model,
                         renderPath pod5],
             output_file := renderPath (dirname fp ++ ["duplex_basecalled.bam"]) } := by
  constructor
  · unfold run_simplex_basecalling
    rw [h]
  · unfold run_duplex_basecalling
    rw [h]

/-- Witness for C5 (amended): the command and output for a concrete marker
and pod5 folder. -/
theorem dispatch_command_shape_witness :
    run_simplex_basecalling
        { path := "/exp", basecalling_method := "simplex", model := "hac",
          email_recipients := "user@example.com", dorado_executable := "dorado" }
        (fun p => p == ["exp", "run1", "pod5"])
        ["exp", "run1", "final_summary.txt"] =
      some { command := ["dorado", "basecaller", "hac", "/exp/run1/pod5"],
             output_file := "/exp/run1/simplex_basecalled.bam" } :=
  (dispatch_command_shape
      { path := "/exp", basecalling_method := "simplex", model := "hac",
        email_recipients := "user@example.com", dorado_executable := "dorado" }
      (fun p => p == ["exp", "run1", "pod5"])
      ["exp", "run1", "final_summary.txt"] ["exp", "run1", "pod5"] (by decide)).1

/-- C9 counterexample: a configuration whose `model` key is absent is not
fatal — `config.get("Settings", "model", fallback="hac")` silently
defaults, `get_experiment_info` succeeds, and the watcher starts (there is
no kit key in the configuration at all, so an "absent kit" cannot even be
expressed, let alone be fatal). -/
theorem missing_model_still_watches :
    startsWatching
      { path := some "/exp", basecalling_method := none, model := none,
        email_recipients := some "user@example.com", dorado_executable := none }
      (fun _ => true) = true := rfl

/-- C9 (amended): a missing root `path` key or a missing `email_recipients`
key aborts startup inside `get_experiment_info` (uncaught
`NoOptionError`), and an existing `path` key naming a non-directory is
reported and the watcher never starts; but whenever `path` and
`email_recipients` are present, watching starts iff the root is a
directory — regardless of the `model` (or any other) key, which merely
defaults. -/
theorem startup_config_error_behaviour (c : RawConfig) (isdir : String → Bool) :
    (c.path = none → startsWatching c isdir = false) ∧
    (c.email_recipients = none → startsWatching c isdir = false) ∧
    (∀ p, c.path = some p → isdir p = false → startsWatching c isdir = false) ∧
    (∀ p r, c.path = some p → c.email_recipients = some r →
        startsWatching c isdir = isdir p) := by
  obtain ⟨cp, cb, cm, cr, cd⟩ := c
  refine ⟨?_, ?_, ?_, ?_⟩
  · intro h
    simp only at h
    subst h
    rfl
  · intro h
    simp only at h
    subst h
    cases cp <;> rfl
  · intro p hp hdir
    simp only at hp
    subst hp
    cases cr with
    | none => rfl
    | some r =>
        show isdir p = false
        exact hdir
  · intro p r hp hr
    simp only at hp hr
    subst hp
    subst hr
    rfl

/-- Witness for C9 (amended): with `path` and `email_recipients` present
and the root existing, watching starts even though `model` is absent. -/
theorem startup_config_error_behaviour_witness :
    startsWatching
      { path := some "/exp", basecalling_method := none, model := none,
        email_recipients := some "user@example.com", dorado_executable := none }
      (fun _ => true) = true :=
  (startup_config_error_behaviour
      { path := some "/exp", basecalling_method := none, model := none,
        email_recipients := some "user@example.com", dorado_executable := none }
      (fun _ => true)).2.2.2 "/exp" "user@example.com" rfl rfl

end NanoporeProcessor
